import Mathlib

/-!
Verification of the `GameLoop` fixed-rate scheduler.

Shallow embedding of the `GameLoop` class from `src/GameLoop.ts` of the
`webgpu-tutorial` repository, together with proofs of the temporal
properties stated in the specification (gate correctness, drift-free
resync, single fire per tick, monotonic elapsed time, error behaviour).

Times and rates are modelled as rationals (`ℚ`): `Date.now()` returns an
integral number of milliseconds and every arithmetic operation performed
by the scheduler (`-`, `/`, `%`, `>`) is exact on the rational inputs the
claims exercise.  The JavaScript remainder operator `%` truncates the
quotient towards zero; `jsMod` below reproduces that.
-/

/-- Truncation towards zero, as JavaScript's `Math.trunc` / the implicit
truncation in the `%` operator: floor for non-negative arguments, ceiling
for negative ones. -/
def jsTrunc (x : ℚ) : ℤ :=
  if 0 ≤ x then ⌊x⌋ else ⌈x⌉

/-- JavaScript's remainder operator `a % b` on finite numbers:
`a - b * trunc (a / b)` (sign follows the dividend). -/
def jsMod (a b : ℚ) : ℚ :=
  a - b * jsTrunc (a / b)

/-- The scheduler state: the eight instance fields of the TypeScript class
`GameLoop`.  The stored callback reference `drawCall` is kept opaque (any
type `α`); its executable behaviour is supplied separately where a claim
needs it (see `GameLoop.runLoopE`). -/
structure GameLoop (α : Type) where
  fps : ℚ
  fpsInterval : ℚ
  drawCall : α
  timeOffset : ℚ
  frameOffset : ℚ
  time : ℚ
  timeInFrame : ℚ
  timeDelta : ℚ
  deriving Repr, DecidableEq

/-- The TypeScript constructor
`constructor(fps: number, drawCall: Function)`, with the ambient clock
read `Date.now()` supplied as the argument `now`.  It performs no
validation whatsoever: every field is assigned unconditionally
(`timeOffset = Date.now(); frameOffset = 0; fps = fps;
fpsInterval = 1000 / fps; drawCall = drawCall; time = 0;
timeInFrame = 0; timeDelta = 0`). -/
def GameLoop.construct (fps : ℚ) (drawCall : α) (now : ℚ) : GameLoop α :=
  { timeOffset := now
    frameOffset := 0
    fps := fps
    fpsInterval := 1000 / fps
    drawCall := drawCall
    time := 0
    timeInFrame := 0
    timeDelta := 0 }

/-- The TypeScript constructor viewed as a fallible operation (a TS
constructor may throw).  The source constructor contains no `throw` and no
check of `fps`, so every input yields `Except.ok` of the constructed
record. -/
def GameLoop.constructE (fps : ℚ) (drawCall : α) (now : ℚ) :
    Except String (GameLoop α) :=
  Except.ok (GameLoop.construct fps drawCall now)

/-- Result of one tick (`runLoop()` body).  `nextFrameRequested` records
whether `requestAnimationFrame(() => this.runLoop())` was issued during
the tick (the source issues it unconditionally, as its first statement);
`fireCount` is the number of times `this.drawCall()` was invoked during
the tick. -/
structure TickResult (α : Type) where
  state : GameLoop α
  nextFrameRequested : Bool
  fireCount : ℕ
  deriving Repr, DecidableEq

/-- The body of `runLoop()`, with the `Date.now()` read supplied as `now`:

```
requestAnimationFrame(() => this.runLoop());
const now = Date.now();
const newTime = now - this.timeOffset;
this.timeDelta = newTime - this.time;
this.time = newTime;
this.timeInFrame = now - this.frameOffset;
if (this.timeInFrame > this.fpsInterval) {
  this.frameOffset = now - (this.timeInFrame % this.fpsInterval);
  this.drawCall();
}
```
-/
def GameLoop.runLoop (g : GameLoop α) (now : ℚ) : TickResult α :=
  let newTime := now - g.timeOffset
  let delta := newTime - g.time
  let tif := now - g.frameOffset
  if tif > g.fpsInterval then
    { state := { g with
        time := newTime
        timeDelta := delta
        timeInFrame := tif
        frameOffset := now - jsMod tif g.fpsInterval }
      nextFrameRequested := true
      fireCount := 1 }
  else
    { state := { g with
        time := newTime
        timeDelta := delta
        timeInFrame := tif }
      nextFrameRequested := true
      fireCount := 0 }

/-- Run a sequence of ticks, the clock reading of each tick given by the
list. -/
def GameLoop.runTicks (g : GameLoop α) : List ℚ → GameLoop α
  | [] => g
  | t :: ts => (g.runLoop t).state.runTicks ts

/-- The per-tick fire counts along a sequence of ticks. -/
def GameLoop.fireTrace (g : GameLoop α) : List ℚ → List ℕ
  | [] => []
  | t :: ts =>
    let r := g.runLoop t
    r.fireCount :: r.state.fireTrace ts

/-- Total number of callback invocations along a sequence of ticks. -/
def GameLoop.countFires (g : GameLoop α) : List ℚ → ℕ
  | [] => 0
  | t :: ts =>
    let r := g.runLoop t
    r.fireCount + r.state.countFires ts

/-- The successive values of the `time` field along a sequence of ticks. -/
def GameLoop.timeTrace (g : GameLoop α) : List ℚ → List ℚ
  | [] => []
  | t :: ts =>
    let r := g.runLoop t
    r.state.time :: r.state.timeTrace ts

/-- Result of one tick when the callback's own behaviour is tracked:
`callbackResult` is what the invocation of `this.drawCall()` returned
(`Except.ok ()` also when the gate did not pass and the callback was not
invoked at all). -/
structure TickResultE (α ε : Type) where
  state : GameLoop α
  nextFrameRequested : Bool
  callbackResult : Except ε Unit

/-- The body of `runLoop()` with a possibly-throwing callback `cb`
standing for the stored `drawCall` reference.  The source contains no
`try`/`catch`: an exception from `this.drawCall()` leaves `runLoop()`
unhandled, which the embedding records in `callbackResult`.  The
`requestAnimationFrame` re-registration is the first statement of the
body and every field assignment textually precedes the `this.drawCall()`
call, so `nextFrameRequested` and the fields of `state` are independent
of the value of `callbackResult`. -/
def GameLoop.runLoopE (g : GameLoop α) (cb : Unit → Except ε Unit)
    (now : ℚ) : TickResultE α ε :=
  let newTime := now - g.timeOffset
  let delta := newTime - g.time
  let tif := now - g.frameOffset
  if tif > g.fpsInterval then
    { state := { g with
        time := newTime
        timeDelta := delta
        timeInFrame := tif
        frameOffset := now - jsMod tif g.fpsInterval }
      nextFrameRequested := true
      callbackResult := cb () }
  else
    { state := { g with
        time := newTime
        timeDelta := delta
        timeInFrame := tif }
      nextFrameRequested := true
      callbackResult := Except.ok () }

/-- Host model of the `requestAnimationFrame` driver: the ticks whose
clock readings are listed are delivered one per display frame, and a tick
actually executes `runLoop()` only while a registration is pending
(`scheduled`).  Each executed tick reports whether it re-registered and
what its callback returned.  A registration already made is honoured even
if the callback that made it later threw — throwing out of an animation
frame callback does not revoke a separately queued registration. -/
def driveTicks (cb : Unit → Except ε Unit) :
    GameLoop α → Bool → List ℚ → List (Bool × Except ε Unit)
  | _, _, [] => []
  | g, scheduled, t :: ts =>
    if scheduled then
      let r := g.runLoopE cb t
      (r.nextFrameRequested, r.callbackResult) ::
        driveTicks cb r.state r.nextFrameRequested ts
    else []

/-- Sixty-one host-driven tick times covering the first 1000 ms at about
60 Hz (the time of tick `n` is `⌊n * 1000 / 60⌋` ms). -/
def hostTicks : List ℚ :=
  [0, 16, 33, 50, 66, 83, 100, 116, 133, 150, 166, 183, 200, 216, 233,
   250, 266, 283, 300, 316, 333, 350, 366, 383, 400, 416, 433, 450, 466,
   483, 500, 516, 533, 550, 566, 583, 600, 616, 633, 650, 666, 683, 700,
   716, 733, 750, 766, 783, 800, 816, 833, 850, 866, 883, 900, 916, 933,
   950, 966, 983, 1000]

/-- A fixed demonstration scheduler: `new GameLoop(5, cb)` constructed at
clock reading `0`, so `fpsInterval = 200`. -/
def demoLoop : GameLoop ℕ := GameLoop.construct 5 0 0

/-! Basic facts about the JavaScript remainder on the arguments the
scheduler feeds it (non-negative dividend, positive divisor). -/

lemma jsTrunc_of_nonneg (x : ℚ) (h : 0 ≤ x) : jsTrunc x = ⌊x⌋ := by
  unfold jsTrunc
  exact if_pos h

lemma jsMod_eq (a b : ℚ) (ha : 0 ≤ a) (hb : 0 < b) :
    jsMod a b = a - b * ⌊a / b⌋ := by
  unfold jsMod
  rw [jsTrunc_of_nonneg _ (div_nonneg ha hb.le)]

lemma jsMod_nonneg (a b : ℚ) (ha : 0 ≤ a) (hb : 0 < b) : 0 ≤ jsMod a b := by
  rw [jsMod_eq a b ha hb]
  have h1 : (⌊a / b⌋ : ℚ) ≤ a / b := Int.floor_le _
  have h2 : b * (⌊a / b⌋ : ℚ) ≤ b * (a / b) := mul_le_mul_of_nonneg_left h1 hb.le
  have h3 : b * (a / b) = a := by field_simp
  linarith

lemma jsMod_lt (a b : ℚ) (ha : 0 ≤ a) (hb : 0 < b) : jsMod a b < b := by
  rw [jsMod_eq a b ha hb]
  have h1 : a / b - 1 < (⌊a / b⌋ : ℚ) := Int.sub_one_lt_floor _
  have h2 : b * (a / b - 1) < b * (⌊a / b⌋ : ℚ) := mul_lt_mul_of_pos_left h1 hb
  rw [mul_sub, mul_one] at h2
  have h3 : b * (a / b) = a := by field_simp
  linarith

lemma sub_jsMod_eq (a b : ℚ) (ha : 0 ≤ a) (hb : 0 < b) :
    a - jsMod a b = b * ⌊a / b⌋ := by
  rw [jsMod_eq a b ha hb]
  ring

lemma one_le_floor_div (a b : ℚ) (hb : 0 < b) (hab : b < a) : 1 ≤ ⌊a / b⌋ := by
  have h : (1 : ℚ) < a / b := (one_lt_div hb).mpr hab
  exact Int.le_floor.mpr (by push_cast; linarith)

/-- Evaluation rule for `jsMod` by exhibiting quotient and remainder. -/
lemma jsMod_eval (a b r : ℚ) (k : ℤ) (hb : 0 < b) (ha : 0 ≤ a)
    (h : a = b * k + r) (hr : 0 ≤ r) (hrb : r < b) : jsMod a b = r := by
  have hfloor : ⌊a / b⌋ = k := by
    rw [Int.floor_eq_iff]
    constructor
    · rw [le_div_iff₀ hb, h, mul_comm]
      linarith
    · rw [div_lt_iff₀ hb, h]
      nlinarith
  rw [jsMod_eq a b ha hb, hfloor, h]
  ring

lemma jsMod_216_200 : jsMod 216 200 = 16 :=
  jsMod_eval 216 200 16 1 (by norm_num) (by norm_num) (by norm_num)
    (by norm_num) (by norm_num)

lemma jsMod_300_200 : jsMod 300 200 = 100 :=
  jsMod_eval 300 200 100 1 (by norm_num) (by norm_num) (by norm_num)
    (by norm_num) (by norm_num)

lemma jsMod_400_200 : jsMod 400 200 = 0 :=
  jsMod_eval 400 200 0 2 (by norm_num) (by norm_num) (by norm_num)
    (by norm_num) (by norm_num)

/-! Field-level description of one tick. -/

lemma runLoop_nextFrameRequested (g : GameLoop α) (now : ℚ) :
    (g.runLoop now).nextFrameRequested = true := by
  simp only [GameLoop.runLoop]
  split <;> rfl

lemma runLoop_fireCount (g : GameLoop α) (now : ℚ) :
    (g.runLoop now).fireCount =
      if now - g.frameOffset > g.fpsInterval then 1 else 0 := by
  simp only [GameLoop.runLoop]
  split <;> rfl

lemma runLoop_time (g : GameLoop α) (now : ℚ) :
    (g.runLoop now).state.time = now - g.timeOffset := by
  simp only [GameLoop.runLoop]
  split <;> rfl

lemma runLoop_timeDelta (g : GameLoop α) (now : ℚ) :
    (g.runLoop now).state.timeDelta = (now - g.timeOffset) - g.time := by
  simp only [GameLoop.runLoop]
  split <;> rfl

lemma runLoop_timeInFrame (g : GameLoop α) (now : ℚ) :
    (g.runLoop now).state.timeInFrame = now - g.frameOffset := by
  simp only [GameLoop.runLoop]
  split <;> rfl

lemma runLoop_frameOffset (g : GameLoop α) (now : ℚ) :
    (g.runLoop now).state.frameOffset =
      if now - g.frameOffset > g.fpsInterval then
        now - jsMod (now - g.frameOffset) g.fpsInterval
      else g.frameOffset := by
  simp only [GameLoop.runLoop]
  split <;> rfl

lemma runLoop_fps (g : GameLoop α) (now : ℚ) :
    (g.runLoop now).state.fps = g.fps := by
  simp only [GameLoop.runLoop]
  split <;> rfl

lemma runLoop_fpsInterval (g : GameLoop α) (now : ℚ) :
    (g.runLoop now).state.fpsInterval = g.fpsInterval := by
  simp only [GameLoop.runLoop]
  split <;> rfl

lemma runLoop_timeOffset (g : GameLoop α) (now : ℚ) :
    (g.runLoop now).state.timeOffset = g.timeOffset := by
  simp only [GameLoop.runLoop]
  split <;> rfl

lemma runLoop_drawCall (g : GameLoop α) (now : ℚ) :
    (g.runLoop now).state.drawCall = g.drawCall := by
  simp only [GameLoop.runLoop]
  split <;> rfl

/-! The tracked-callback tick agrees with the plain tick on the state and
on the re-registration, and hands the callback's outcome through
unchanged. -/

lemma runLoopE_state (g : GameLoop α) (cb : Unit → Except ε Unit)
    (now : ℚ) : (g.runLoopE cb now).state = (g.runLoop now).state := by
  simp only [GameLoop.runLoopE, GameLoop.runLoop]
  split <;> rfl

lemma runLoopE_nextFrameRequested (g : GameLoop α)
    (cb : Unit → Except ε Unit) (now : ℚ) :
    (g.runLoopE cb now).nextFrameRequested = true := by
  simp only [GameLoop.runLoopE]
  split <;> rfl

lemma runLoopE_callbackResult (g : GameLoop α) (cb : Unit → Except ε Unit)
    (now : ℚ) :
    (g.runLoopE cb now).callbackResult =
      if now - g.frameOffset > g.fpsInterval then cb ()
      else Except.ok () := by
  simp only [GameLoop.runLoopE]
  split <;> rfl

/-! The per-construction constants survive any run of ticks. -/

lemma runTicks_fpsInterval (g : GameLoop α) (ts : List ℚ) :
    (g.runTicks ts).fpsInterval = g.fpsInterval := by
  induction ts generalizing g with
  | nil => rfl
  | cons t ts ih =>
    rw [GameLoop.runTicks, ih, runLoop_fpsInterval]

lemma runTicks_timeOffset (g : GameLoop α) (ts : List ℚ) :
    (g.runTicks ts).timeOffset = g.timeOffset := by
  induction ts generalizing g with
  | nil => rfl
  | cons t ts ih =>
    rw [GameLoop.runTicks, ih, runLoop_timeOffset]

/-- The `time` values recorded along a run are non-decreasing whenever the
clock readings are. -/
lemma timeTrace_chain (g : GameLoop α) (ts : List ℚ)
    (h : ts.Chain' (· ≤ ·)) : (g.timeTrace ts).Chain' (· ≤ ·) := by
  induction ts generalizing g with
  | nil => simp [GameLoop.timeTrace]
  | cons t ts ih =>
    rcases ts with _ | ⟨t2, ts2⟩
    · simp [GameLoop.timeTrace]
    · obtain ⟨htt, htail⟩ := List.chain'_cons.mp h
      rw [GameLoop.timeTrace]
      rw [List.chain'_cons']
      refine ⟨?_, ih _ htail⟩
      intro b hb
      rw [GameLoop.timeTrace] at hb
      simp only [List.head?_cons, Option.mem_def, Option.some_inj] at hb
      subst hb
      rw [runLoop_time, runLoop_time, runLoop_timeOffset]
      linarith

/-- A pending registration keeps the driver running through the whole tick
script: `runLoop()` re-registers unconditionally, so no tick is ever
skipped for lack of a registration. -/
lemma driveTicks_length (cb : Unit → Except ε Unit) (g : GameLoop α)
    (ts : List ℚ) : (driveTicks cb g true ts).length = ts.length := by
  induction ts generalizing g with
  | nil => rfl
  | cons t ts ih =>
    rw [driveTicks]
    rw [if_pos rfl]
    simp only [List.length_cons]
    rw [runLoopE_nextFrameRequested, ih]

/-- C1: for every scheduler constructed with target rate `fps` and every
tick at clock reading `now` (after any preceding run of ticks), the
callback is invoked on that tick iff `now - frameOffset` is strictly
greater than `1000 / fps` at the moment of the tick. -/
theorem gate_correctness (fps t0 now : ℚ) (cb : ℕ) (prev : List ℚ) :
    (((GameLoop.construct fps cb t0).runTicks prev).runLoop now).fireCount = 1 ↔
      now - ((GameLoop.construct fps cb t0).runTicks prev).frameOffset
        > 1000 / fps := by
  rw [runLoop_fireCount, runTicks_fpsInterval]
  simp only [GameLoop.construct]
  split <;> simp_all

/-- C2: on every firing tick with gate value `g = now - frameOffset`, the
new boundary is `now - (g % interval)`; hence it is at most `now`, leaves a
residual strictly below `interval`, and advances the old boundary by a
positive integer multiple of `interval`. -/
theorem drift_free_resync (s : GameLoop ℕ) (now : ℚ)
    (hi : 0 < s.fpsInterval) (hg : now - s.frameOffset > s.fpsInterval) :
    (s.runLoop now).fireCount = 1 ∧
    (s.runLoop now).state.frameOffset =
      now - jsMod (now - s.frameOffset) s.fpsInterval ∧
    (s.runLoop now).state.frameOffset ≤ now ∧
    now - (s.runLoop now).state.frameOffset < s.fpsInterval ∧
    ∃ k : ℤ, 1 ≤ k ∧
      (s.runLoop now).state.frameOffset - s.frameOffset =
        k * s.fpsInterval := by
  have ha : (0 : ℚ) ≤ now - s.frameOffset := le_of_lt (lt_trans hi hg)
  have hoff : (s.runLoop now).state.frameOffset =
      now - jsMod (now - s.frameOffset) s.fpsInterval := by
    rw [runLoop_frameOffset, if_pos hg]
  have hnn := jsMod_nonneg (now - s.frameOffset) s.fpsInterval ha hi
  have hlt := jsMod_lt (now - s.frameOffset) s.fpsInterval ha hi
  refine ⟨?_, hoff, ?_, ?_, ?_⟩
  · rw [runLoop_fireCount, if_pos hg]
  · rw [hoff]; linarith
  · rw [hoff]; linarith
  · refine ⟨⌊(now - s.frameOffset) / s.fpsInterval⌋,
      one_le_floor_div _ _ hi hg, ?_⟩
    have hsub := sub_jsMod_eq (now - s.frameOffset) s.fpsInterval ha hi
    have hre : (now - jsMod (now - s.frameOffset) s.fpsInterval)
        - s.frameOffset
        = (now - s.frameOffset) - jsMod (now - s.frameOffset) s.fpsInterval := by
      ring
    rw [hoff, hre, hsub, mul_comm]

/-- Witness for C2 at `demoLoop` (interval 200) and a tick at time 700:
the boundary becomes `700 - (700 % 200) = 600 = 3 * 200`. -/
theorem drift_free_resync_witness :
    (demoLoop.runLoop 700).fireCount = 1 ∧
    (demoLoop.runLoop 700).state.frameOffset =
      700 - jsMod (700 - demoLoop.frameOffset) demoLoop.fpsInterval ∧
    (demoLoop.runLoop 700).state.frameOffset ≤ 700 ∧
    700 - (demoLoop.runLoop 700).state.frameOffset < demoLoop.fpsInterval ∧
    ∃ k : ℤ, 1 ≤ k ∧
      (demoLoop.runLoop 700).state.frameOffset - demoLoop.frameOffset =
        k * demoLoop.fpsInterval :=
  drift_free_resync demoLoop 700
    (by norm_num [demoLoop, GameLoop.construct])
    (by norm_num [demoLoop, GameLoop.construct])

/-- C4: a tick never invokes the callback more than once, and a stalled
tick whose gate value exceeds three whole intervals still fires exactly
once. -/
theorem at_most_one_fire_per_tick (s s2 : GameLoop ℕ) (now n2 : ℚ)
    (hi : 0 < s.fpsInterval)
    (hstall : now - s.frameOffset > 3 * s.fpsInterval) :
    (s.runLoop now).fireCount = 1 ∧ (s2.runLoop n2).fireCount ≤ 1 := by
  constructor
  · rw [runLoop_fireCount, if_pos (by linarith)]
  · rw [runLoop_fireCount]
    split <;> norm_num

/-- Witness for C4: a tick at time 700 against `demoLoop` (interval 200,
boundary 0) has gate value `700 > 3 * 200` yet fires exactly once. -/
theorem at_most_one_fire_per_tick_witness :
    (demoLoop.runLoop 700).fireCount = 1 ∧
    (demoLoop.runLoop 50).fireCount ≤ 1 :=
  at_most_one_fire_per_tick demoLoop demoLoop 700 50
    (by norm_num [demoLoop, GameLoop.construct])
    (by norm_num [demoLoop, GameLoop.construct])

/-- C7: a tick whose gate does not pass leaves `frameOffset`, `fps`,
`fpsInterval`, `timeOffset` and `drawCall` unchanged, does not invoke the
callback, and updates only `time`, `timeDelta` and `timeInFrame`. -/
theorem no_fire_tick_effects (s : GameLoop ℕ) (now : ℚ)
    (h : now - s.frameOffset ≤ s.fpsInterval) :
    (s.runLoop now).fireCount = 0 ∧
    (s.runLoop now).state.frameOffset = s.frameOffset ∧
    (s.runLoop now).state.fps = s.fps ∧
    (s.runLoop now).state.fpsInterval = s.fpsInterval ∧
    (s.runLoop now).state.timeOffset = s.timeOffset ∧
    (s.runLoop now).state.drawCall = s.drawCall ∧
    (s.runLoop now).state.time = now - s.timeOffset ∧
    (s.runLoop now).state.timeDelta = (now - s.timeOffset) - s.time ∧
    (s.runLoop now).state.timeInFrame = now - s.frameOffset := by
  have hnot : ¬ (now - s.frameOffset > s.fpsInterval) := not_lt.mpr h
  refine ⟨?_, ?_, runLoop_fps s now, runLoop_fpsInterval s now,
    runLoop_timeOffset s now, runLoop_drawCall s now, runLoop_time s now,
    runLoop_timeDelta s now, runLoop_timeInFrame s now⟩
  · rw [runLoop_fireCount, if_neg hnot]
  · rw [runLoop_frameOffset, if_neg hnot]

/-- Witness for C7: a tick at time 100 against `demoLoop` (interval 200)
does not fire and changes only the three timing fields. -/
theorem no_fire_tick_effects_witness :
    (demoLoop.runLoop 100).fireCount = 0 ∧
    (demoLoop.runLoop 100).state.frameOffset = demoLoop.frameOffset ∧
    (demoLoop.runLoop 100).state.fps = demoLoop.fps ∧
    (demoLoop.runLoop 100).state.fpsInterval = demoLoop.fpsInterval ∧
    (demoLoop.runLoop 100).state.timeOffset = demoLoop.timeOffset ∧
    (demoLoop.runLoop 100).state.drawCall = demoLoop.drawCall ∧
    (demoLoop.runLoop 100).state.time = 100 - demoLoop.timeOffset ∧
    (demoLoop.runLoop 100).state.timeDelta =
      (100 - demoLoop.timeOffset) - demoLoop.time ∧
    (demoLoop.runLoop 100).state.timeInFrame =
      100 - demoLoop.frameOffset :=
  no_fire_tick_effects demoLoop 100 (by norm_num [demoLoop, GameLoop.construct])

/-- C8: across any run whose clock readings are non-decreasing, the `time`
field is non-decreasing, and on every tick `timeDelta` equals the new
`time` minus the previous tick's `time`. -/
theorem monotonic_elapsed_time (g s : GameLoop ℕ) (ts : List ℚ) (now : ℚ)
    (h : ts.Chain' (· ≤ ·)) :
    (g.timeTrace ts).Chain' (· ≤ ·) ∧
    (s.runLoop now).state.timeDelta =
      (s.runLoop now).state.time - s.time := by
  refine ⟨timeTrace_chain g ts h, ?_⟩
  rw [runLoop_timeDelta, runLoop_time]

/-- Witness for C8 on the concrete tick script `0, 16, 33`. -/
theorem monotonic_elapsed_time_witness :
    (demoLoop.timeTrace [0, 16, 33]).Chain' (· ≤ ·) ∧
    (demoLoop.runLoop 16).state.timeDelta =
      (demoLoop.runLoop 16).state.time - demoLoop.time :=
  monotonic_elapsed_time demoLoop demoLoop [0, 16, 33] 16
    (by norm_num [List.chain'_cons, List.chain'_singleton])

/-- C9 (implicit): `frameOffset` is initialised to the constant `0` while
the gate compares it against the absolute clock reading, so any first tick
whose absolute clock value exceeds `1000 / fps` fires immediately,
however soon after construction it arrives. -/
theorem first_tick_fires_absolute_clock (fps t0 now : ℚ) (cb : ℕ)
    (h : now > 1000 / fps) :
    ((GameLoop.construct fps cb t0).runLoop now).fireCount = 1 := by
  rw [runLoop_fireCount]
  have hgt : now - (GameLoop.construct fps cb t0).frameOffset
      > (GameLoop.construct fps cb t0).fpsInterval := by
    simp only [GameLoop.construct]
    simpa using h
  rw [if_pos hgt]

/-- Witness for C9: a scheduler constructed at epoch-style clock reading
123456 fires on a tick arriving at that same instant, zero milliseconds
after construction. -/
theorem first_tick_fires_absolute_clock_witness :
    ((GameLoop.construct 5 123456 (123456 : ℚ)).runLoop 123456).fireCount = 1 :=
  first_tick_fires_absolute_clock 5 (123456 : ℚ) 123456 123456 (by norm_num)

/-- C3 counterexample: constructing with `targetRate = 0` (and with a
negative rate) does not fail — the constructor has no validation and no
`throw` — and the timing fields are all initialised (`time`,
`timeInFrame`, `timeDelta` and `frameOffset` to `0`, `timeOffset` to the
construction-time clock reading). -/
theorem construction_accepts_invalid_rate :
    GameLoop.constructE 0 (0 : ℕ) 5 =
      Except.ok (GameLoop.construct 0 (0 : ℕ) 5) ∧
    GameLoop.constructE (-30) (0 : ℕ) 7 =
      Except.ok (GameLoop.construct (-30) (0 : ℕ) 7) ∧
    (GameLoop.construct 0 (0 : ℕ) 5).time = 0 ∧
    (GameLoop.construct 0 (0 : ℕ) 5).timeInFrame = 0 ∧
    (GameLoop.construct 0 (0 : ℕ) 5).timeDelta = 0 ∧
    (GameLoop.construct 0 (0 : ℕ) 5).frameOffset = 0 ∧
    (GameLoop.construct 0 (0 : ℕ) 5).timeOffset = 5 :=
  ⟨rfl, rfl, rfl, rfl, rfl, rfl, rfl⟩

/-- C3 (amended): construction never fails for any `targetRate` — the
constructor validates nothing — and it unconditionally initialises every
field, deriving `fpsInterval` from the expression `1000 / fps`. -/
theorem construction_never_fails (fps now : ℚ) (cb : ℕ) :
    GameLoop.constructE fps cb now =
      Except.ok (GameLoop.construct fps cb now) ∧
    (GameLoop.construct fps cb now).fps = fps ∧
    (GameLoop.construct fps cb now).fpsInterval = 1000 / fps ∧
    (GameLoop.construct fps cb now).drawCall = cb ∧
    (GameLoop.construct fps cb now).timeOffset = now ∧
    (GameLoop.construct fps cb now).frameOffset = 0 ∧
    (GameLoop.construct fps cb now).time = 0 ∧
    (GameLoop.construct fps cb now).timeInFrame = 0 ∧
    (GameLoop.construct fps cb now).timeDelta = 0 :=
  ⟨rfl, rfl, rfl, rfl, rfl, rfl, rfl, rfl, rfl⟩

set_option maxHeartbeats 4000000 in
/-- C5: for `targetRate = 5` (interval 200 ms), construction at clock
reading 0 and host ticks at `0, 16, 33, …, 1000` ms, the first fire is at
tick index 13 (time 216 ms, the first tick strictly beyond 200 ms), the
callback fires 4 times over the ticks of the first 1000 ms and 5 times
when the next tick (1016 ms) is included — about five invocations per
second, not sixty. -/
theorem concrete_scenario_5hz :
    demoLoop.fpsInterval = 200 ∧
    (GameLoop.fireTrace demoLoop hostTicks).findIdx (fun c => c == 1) = 13 ∧
    hostTicks.getD 13 0 = 216 ∧
    GameLoop.countFires demoLoop hostTicks = 4 ∧
    GameLoop.countFires demoLoop (hostTicks ++ [1016]) = 5 := by
  refine ⟨by norm_num [demoLoop, GameLoop.construct], ?_,
    by norm_num [hostTicks], ?_, ?_⟩
  · have ht : GameLoop.fireTrace demoLoop hostTicks =
        [0, 0, 0, 0, 0, 0, 0, 0, 0, 0, 0, 0, 0, 1, 0, 0, 0, 0, 0, 0, 0,
         0, 0, 0, 0, 1, 0, 0, 0, 0, 0, 0, 0, 0, 0, 0, 0, 1, 0, 0, 0, 0,
         0, 0, 0, 0, 0, 0, 0, 1, 0, 0, 0, 0, 0, 0, 0, 0, 0, 0, 0] := by
      norm_num [demoLoop, hostTicks, GameLoop.fireTrace, GameLoop.runLoop,
        GameLoop.construct, jsMod_216_200]
    rw [ht]
    decide
  all_goals
    norm_num [demoLoop, hostTicks, GameLoop.countFires,
      GameLoop.runLoop, GameLoop.construct, jsMod_216_200]

/-- C6 counterexample: with a callback that always throws, a scheduler at
interval 200 ticked at times 300 and 600 executes **both** ticks: the
exception escaping the first tick does not prevent the second from
running, because the first tick had already re-registered (first
component `true`) before its callback threw — the loop is not stopped by
the unhandled callback failure. -/
theorem loop_continues_after_callback_error :
    driveTicks (fun _ => Except.error ()) demoLoop true [300, 600] =
      [(true, Except.error ()), (true, Except.error ())] := by
  norm_num [driveTicks, demoLoop, GameLoop.runLoopE, GameLoop.construct,
    jsMod_300_200, jsMod_400_200]

/-- C6 (amended): the scheduler does not catch callback exceptions — on a
firing tick a throwing callback's exception is handed out of the tick
unhandled — but the failure does not stop the loop: the next frame was
requested before the callback ran, and every scheduled tick of the script
still executes. -/
theorem callback_exception_policy {ε : Type} (g : GameLoop ℕ)
    (cb : Unit → Except ε Unit) (now : ℚ) (e : ε) (ts : List ℚ)
    (he : cb () = Except.error e)
    (hg : now - g.frameOffset > g.fpsInterval) :
    (g.runLoopE cb now).callbackResult = Except.error e ∧
    (g.runLoopE cb now).nextFrameRequested = true ∧
    (driveTicks cb g true (now :: ts)).length = ts.length + 1 := by
  refine ⟨?_, runLoopE_nextFrameRequested g cb now, ?_⟩
  · rw [runLoopE_callbackResult, if_pos hg, he]
  · simpa using driveTicks_length cb g (now :: ts)

/-- Witness for the amended C6 at the concrete failing run of
`loop_continues_after_callback_error`. -/
theorem callback_exception_policy_witness :
    ((demoLoop.runLoopE (fun _ => Except.error ()) 300).callbackResult
      = Except.error ()) ∧
    ((demoLoop.runLoopE (fun _ => Except.error ()) 300).nextFrameRequested
      = true) ∧
    (driveTicks (fun _ => Except.error ()) demoLoop true [300, 600]).length
      = 2 :=
  callback_exception_policy demoLoop (fun _ => Except.error ()) 300 () [600]
    rfl (by norm_num [demoLoop, GameLoop.construct])

/-- C10 (implicit): on a firing tick whose callback throws, the
re-registration and every field update had already been performed when
the exception propagates: the result carries the fully updated `time`,
`timeDelta`, `timeInFrame` and advanced `frameOffset`, a requested next
frame, and the callback's error. -/
theorem no_rollback_on_callback_failure {ε : Type} (g : GameLoop ℕ)
    (cb : Unit → Except ε Unit) (now : ℚ) (e : ε)
    (he : cb () = Except.error e)
    (hg : now - g.frameOffset > g.fpsInterval) :
    (g.runLoopE cb now).state.time = now - g.timeOffset ∧
    (g.runLoopE cb now).state.timeDelta = (now - g.timeOffset) - g.time ∧
    (g.runLoopE cb now).state.timeInFrame = now - g.frameOffset ∧
    (g.runLoopE cb now).state.frameOffset =
      now - jsMod (now - g.frameOffset) g.fpsInterval ∧
    (g.runLoopE cb now).nextFrameRequested = true ∧
    (g.runLoopE cb now).callbackResult = Except.error e := by
  refine ⟨?_, ?_, ?_, ?_, runLoopE_nextFrameRequested g cb now, ?_⟩
  · rw [runLoopE_state, runLoop_time]
  · rw [runLoopE_state, runLoop_timeDelta]
  · rw [runLoopE_state, runLoop_timeInFrame]
  · rw [runLoopE_state, runLoop_frameOffset, if_pos hg]
  · rw [runLoopE_callbackResult, if_pos hg, he]

/-- Witness for C10: a throwing callback on the firing tick at time 300
against `demoLoop` leaves all updates in place. -/
theorem no_rollback_on_callback_failure_witness :
    ((demoLoop.runLoopE (fun _ => Except.error ()) 300).state.time
      = 300 - demoLoop.timeOffset) ∧
    ((demoLoop.runLoopE (fun _ => Except.error ()) 300).state.timeDelta
      = (300 - demoLoop.timeOffset) - demoLoop.time) ∧
    ((demoLoop.runLoopE (fun _ => Except.error ()) 300).state.timeInFrame
      = 300 - demoLoop.frameOffset) ∧
    ((demoLoop.runLoopE (fun _ => Except.error ()) 300).state.frameOffset
      = 300 - jsMod (300 - demoLoop.frameOffset) demoLoop.fpsInterval) ∧
    ((demoLoop.runLoopE (fun _ => Except.error ()) 300).nextFrameRequested
      = true) ∧
    ((demoLoop.runLoopE (fun _ => Except.error ()) 300).callbackResult
      = Except.error ()) :=
  no_rollback_on_callback_failure demoLoop (fun _ => Except.error ()) 300 ()
    rfl (by norm_num [demoLoop, GameLoop.construct])
